import Mathlib

/-!
Verification development for the Telegram Mini App backend
(`netlify/functions/progress.ts` and `netlify/functions/sync.js`).

The two request handlers and their signature verifiers are shallowly
embedded as pure Lean functions.  Platform primitives that the source
calls (Node `crypto.createHmac`, `JSON.parse`, the locale comparison
used by `String.prototype.localeCompare`) are passed in as explicit
function parameters, so every definition is executable and every theorem
quantifies over the platform behaviour where the source delegates to it.

Scope notes on the embedding of JavaScript semantics:
* strings are modelled over their code points (ASCII in all inputs of
  interest), so JS UTF-16 code-unit string order coincides with Lean's
  `String` order on them;
* JS numbers are modelled as `Option Int`, `none` standing for `NaN`;
  only integral decimal literals of `Number(...)` coercion are modelled,
  and array/object coercions are approximated as `NaN` (never exercised);
* percent-decoding is modelled for ASCII byte values.
-/

namespace TgApp

/-- JSON values as produced by `JSON.parse`.  Numbers are modelled as
integers (all ids and counters of this program are integral). -/
inductive Json where
  | null : Json
  | bool (b : Bool) : Json
  | num (n : Int) : Json
  | str (s : String) : Json
  | arr (elems : List Json) : Json
  | obj (fields : List (String × Json)) : Json

/-- Property access `j.k` on a parsed JSON value: a field lookup on
objects, `undefined` (here `none`) on everything else. -/
def Json.getField : Json → String → Option Json
  | .obj fs, k => fs.lookup k
  | _, _ => none

/-- JS truthiness of a JSON value (`null`, `false`, `0` and `""` are
falsy; arrays and objects are truthy). -/
def jsTruthy : Json → Bool
  | .null => false
  | .bool b => b
  | .num n => n != 0
  | .str s => s ≠ ""
  | .arr _ => true
  | .obj _ => true

/-- JS string coercion of a JSON value, as applied when a non-string
ends up where the source expects a string.  Array coercion is
approximated by `""` (never exercised by the handlers' inputs). -/
def jsToStr : Json → String
  | .str s => s
  | .num n => toString n
  | .bool b => if b then "true" else "false"
  | .null => "null"
  | .arr _ => ""
  | .obj _ => "[object Object]"

/-- Value of a hexadecimal digit, if any. -/
def hexVal (c : Char) : Option Nat :=
  if '0' ≤ c ∧ c ≤ '9' then some (c.toNat - 48)
  else if 'A' ≤ c ∧ c ≤ 'F' then some (c.toNat - 55)
  else if 'a' ≤ c ∧ c ≤ 'f' then some (c.toNat - 87)
  else none

/-- `application/x-www-form-urlencoded` decoding, as `URLSearchParams`
performs on every key and value: `+` becomes a space, a valid `%XX`
escape becomes the byte `XX`, anything else is kept (ASCII scope; see
the file header).  The `fuel` argument only bounds the recursion (one
unit per character consumed, at least one character per step), keeping
the definition structurally recursive. -/
def urlDecodeFuel : Nat → List Char → List Char
  | 0, _ => []
  | _, [] => []
  | fuel + 1, c :: rest =>
    if c = '+' then ' ' :: urlDecodeFuel fuel rest
    else if c = '%' then
      match rest with
      | a :: b :: rest' =>
        match hexVal a, hexVal b with
        | some ha, some hb => Char.ofNat (16 * ha + hb) :: urlDecodeFuel fuel rest'
        | _, _ => '%' :: urlDecodeFuel fuel rest
      | _ => '%' :: urlDecodeFuel fuel rest
    else c :: urlDecodeFuel fuel rest

/-- Decode a component with enough fuel for the whole input. -/
def urlDecodeList (cs : List Char) : List Char :=
  urlDecodeFuel cs.length cs

/-- Split a character list at every `&`, keeping empty segments for the
caller to discard (as `URLSearchParams` does). -/
def splitAmpAux : List Char → List Char → List (List Char)
  | [], acc => [acc.reverse]
  | c :: rest, acc =>
    if c = '&' then acc.reverse :: splitAmpAux rest []
    else splitAmpAux rest (c :: acc)

/-- One `key=value` segment: the key is everything before the first
`=`, the value everything after it (`""` when there is no `=`); both
are percent-decoded. -/
def parsePair (seg : List Char) : String × String :=
  let k := seg.takeWhile (fun c => c ≠ '=')
  let v := (seg.dropWhile (fun c => c ≠ '=')).drop 1
  (⟨urlDecodeList k⟩, ⟨urlDecodeList v⟩)

/-- The ordered pair list of `new URLSearchParams(s)`: an optional
leading `?` is ignored, the rest is split at `&`, empty segments are
dropped, and each segment is decoded by `parsePair`. -/
def parseParams (s : String) : List (String × String) :=
  let cs := match s.data with
    | '?' :: rest => rest
    | l => l
  (splitAmpAux cs []).filterMap (fun seg =>
    if seg = [] then none else some (parsePair seg))

/-- Join with single newline characters, as `Array.prototype.join("\n")`. -/
def joinNl : List String → String
  | [] => ""
  | [s] => s
  | s :: rest => s ++ "\n" ++ joinNl rest

/-- Code-point lexicographic order on character lists, as a Boolean
(`true` iff the first list sorts no later than the second).  This is
the default `Array.prototype.sort()` string comparator of JS on the
code-point range shared with UTF-16 code-unit order (see file header). -/
def charListLeb : List Char → List Char → Bool
  | [], _ => true
  | _ :: _, [] => false
  | a :: as, b :: bs =>
    if a < b then true
    else if b < a then false
    else charListLeb as bs

/-- Code-point lexicographic order on strings, as a Boolean. -/
def strLeb (a b : String) : Bool := charListLeb a.data b.data

/-- Sorted insertion used to model `Array.prototype.sort()` on strings
(default comparator: code-unit lexicographic order). -/
def insertStr (s : String) : List String → List String
  | [] => [s]
  | t :: ts => if strLeb s t then s :: t :: ts else t :: insertStr s ts

/-- Model of `pairs.sort()` from `progress.ts`: the sorted permutation
of the formatted `key=value` strings under Lean's `String` order. -/
def sortStrings : List String → List String
  | [] => []
  | s :: ss => insertStr s (sortStrings ss)

end TgApp

namespace TgApp

/-- Number of a decimal digit string (at least one digit), if all
characters are digits. -/
def digitsVal : List Char → Option Nat
  | [] => none
  | cs =>
    if cs.all Char.isDigit then
      some (cs.foldl (fun n c => 10 * n + (c.toNat - 48)) 0)
    else none

/-- ASCII whitespace stripped by JS `Number(...)` coercion. -/
def isWs (c : Char) : Bool := c = ' ' ∨ c = '\t' ∨ c = '\n' ∨ c = '\r'

/-- JS `Number(string)` coercion, modelled for integral decimal
literals: surrounding whitespace is stripped, the empty string is `0`,
an optional sign precedes the digits, and every other form is `NaN`
(`none`). -/
def strToNumber (s : String) : Option Int :=
  let t := (s.data.dropWhile isWs).reverse.dropWhile isWs |>.reverse
  match t with
  | [] => some 0
  | '-' :: ds => (digitsVal ds).map (fun n => -(n : Int))
  | '+' :: ds => (digitsVal ds).map (fun n => (n : Int))
  | ds => (digitsVal ds).map (fun n => (n : Int))

/-- JS `Number(x)` coercion of a possibly-undefined JSON value:
`undefined` and non-numeric strings give `NaN` (`none`); array/object
coercion is approximated as `NaN` except `Number([]) = 0`. -/
def jsNumber : Option Json → Option Int
  | none => none
  | some .null => some 0
  | some (.bool b) => some (if b then 1 else 0)
  | some (.num n) => some n
  | some (.str s) => strToNumber s
  | some (.arr []) => some 0
  | some (.arr (_ :: _)) => none
  | some (.obj _) => none

/-! ## The verifier of `progress.ts` (`verifyTelegramInitData`) -/

/-- Success payload of `verifyTelegramInitData`
(`{ ok: true; userId; username?; first_name? }`).  `userId` is
`Number(user.id)`, so `none` models `NaN`. -/
structure TgVerifyOk where
  userId : Option Int
  username : Option Json
  first_name : Option Json

/-- Result of `verifyTelegramInitData`: `{ ok: true, ... }` or
`{ ok: false, reason }`. -/
inductive TgVerify where
  | ok (v : TgVerifyOk)
  | fail (reason : String)

/-- The `reason` of a failed verification, if the result failed. -/
def TgVerify.reasonOf : TgVerify → Option String
  | .ok _ => none
  | .fail r => some r

/-- Node's `crypto.timingSafeEqual(Buffer.from(a), Buffer.from(b))`:
throws (`none`) when the UTF-8 byte lengths differ, otherwise answers
whether the byte strings are equal. -/
def timingSafeEqual (a b : String) : Option Bool :=
  if a.utf8ByteSize = b.utf8ByteSize then some (a == b) else none

/-- Lines 46-49 of `progress.ts`: the `pairs` array pushed by
`params.forEach`, every non-`hash` pair formatted as `key=value`. -/
def progressPairs (initData : String) : List String :=
  ((parseParams initData).filter (fun p => p.1 ≠ "hash")).map
    (fun p => p.1 ++ "=" ++ p.2)

/-- Lines 50-51 of `progress.ts`: `pairs.sort(); pairs.join("\n")`. -/
def progressDataCheckString (initData : String) : String :=
  joinNl (sortStrings (progressPairs initData))

/-- `verifyTelegramInitData` from `progress.ts` (lines 40-71).  The two
platform primitives it calls are explicit parameters: `hmac key msg` is
the result of `crypto.createHmac("sha256", key).update(msg)` (`digest()`
and `digest("hex")` byte strings are identified with their `String`
rendering), and `jp` is `JSON.parse` returning `none` on a parse error.
The module-level `TELEGRAM_BOT_TOKEN` is the `botToken` parameter. -/
def verifyTelegramInitData (hmac : String → String → String)
    (jp : String → Option Json) (botToken : String)
    (initData : String) : TgVerify :=
  if initData = "" then .fail "EMPTY"
  else
    let params := parseParams initData
    let hash := (params.lookup "hash").getD ""
    if hash = "" then .fail "NO_HASH"
    else
      let secretKey := hmac "WebAppData" botToken
      let calcHash := hmac secretKey (progressDataCheckString initData)
      match timingSafeEqual calcHash hash with
      | none => .fail "CRYPTO_FAIL"
      | some false => .fail "HASH_MISMATCH"
      | some true =>
        match params.lookup "user" with
        | none => .fail "NO_USER"
        | some userJson =>
          if userJson = "" then .fail "NO_USER"
          else
            match jp userJson with
            | none => .fail "USER_PARSE"
            | some user =>
              .ok ⟨jsNumber (user.getField "id"),
                   user.getField "username", user.getField "first_name"⟩

/-! ## The verifier of `sync.js` (`verifyTelegram`) -/

/-- Stable insertion of one entry into a comparator-sorted entry list,
used to model `Array.prototype.sort` with the key comparator
`([a],[b]) => a.localeCompare(b)` of `sync.js`. -/
def insertEntryBy (cmp : String → String → Ordering) (e : String × String) :
    List (String × String) → List (String × String)
  | [] => [e]
  | t :: ts =>
    match cmp e.1 t.1 with
    | Ordering.lt => e :: t :: ts
    | _ => t :: insertEntryBy cmp e ts

/-- Stable sort of the entry list by the key comparator. -/
def sortEntriesBy (cmp : String → String → Ordering)
    (l : List (String × String)) : List (String × String) :=
  l.foldl (fun acc e => insertEntryBy cmp e acc) []

/-- Line 82 of `sync.js`: the entries left after `params.delete("hash")`. -/
def syncRest (s : String) : List (String × String) :=
  (parseParams s).filter (fun p => p.1 ≠ "hash")

/-- Lines 84-87 of `sync.js`: the remaining entries sorted with
`localeCompare` (the ambient-locale comparator `cmp`), formatted as
`key=value` and joined with newlines. -/
def syncDataCheckString (cmp : String → String → Ordering) (s : String) : String :=
  joinNl ((sortEntriesBy cmp (syncRest s)).map (fun p => p.1 ++ "=" ++ p.2))

/-- Line 94 of `sync.js`: `Number(params.get("auth_date") || 0)`;
`none` models `NaN`. -/
def syncAuthDate (s : String) : Option Int :=
  match (parseParams s).lookup "auth_date" with
  | none => some 0
  | some t => if t = "" then some 0 else strToNumber t

/-- Line 97 of `sync.js`: `Date.now() / 1000 - authDate > 86400 * 7`,
with the ambient clock `Date.now()` made the explicit millisecond input
`nowMs`.  A `NaN` `auth_date` makes the comparison false.  The check is
stated over the integers in the exactly equivalent cleared-denominator
form (`syncIsStale_spec` below proves the equivalence with the source's
rational formula), keeping the definition kernel-executable. -/
def syncIsStale (nowMs : Int) (s : String) : Bool :=
  match syncAuthDate s with
  | none => false
  | some a => decide (nowMs - 1000 * a > 86400 * 7 * 1000)

/-- `verifyTelegram` from `sync.js` (lines 76-104).  On failure the
source returns `null` (no reason tags), here `none`; on success it
returns `JSON.parse(userStr)`.  `cmp` models the ambient-locale
`localeCompare`, `nowMs` the ambient clock read by `Date.now()`. -/
def verifyTelegram (cmp : String → String → Ordering)
    (hmac : String → String → String) (jp : String → Option Json)
    (nowMs : Int) (initData : String) (botToken : String) : Option Json :=
  if initData = "" then none
  else
    let params := parseParams initData
    match params.lookup "hash" with
    | none => none
    | some hash =>
      if hash = "" then none
      else
        let secretKey := hmac "WebAppData" botToken
        let sign := hmac secretKey (syncDataCheckString cmp initData)
        if sign ≠ hash then none
        else
          match (syncRest initData).lookup "user" with
          | none => none
          | some userStr =>
            if userStr = "" then none
            else if syncIsStale nowMs initData then none
            else jp userStr

/-! ## The request handler of `progress.ts` -/

/-- ASCII lowering of one character, the fragment of
`String.prototype.toLowerCase` exercised by the header names. -/
def lowerChar (c : Char) : Char :=
  if 'A' ≤ c ∧ c ≤ 'Z' then Char.ofNat (c.toNat + 32) else c

/-- Line 144 of `progress.ts`: every header key lowercased. -/
def lowerHeaders (headers : List (String × String)) : List (String × String) :=
  headers.map (fun p => (⟨p.1.data.map lowerChar⟩, p.2))

/-- Lookup in the object built by `Object.fromEntries`: on duplicate
keys the last entry wins, hence the reverse. -/
def objLookup (l : List (String × String)) (k : String) : Option String :=
  l.reverse.lookup k

/-- `devUser` from `progress.ts` (lines 73-77): the trusted-header dev
identity `{ id?, username?, first_name? }`.  `Number(idRaw)` not being
finite (`NaN`, modelled by `none`) yields the empty identity. -/
def devUser (hdrs : List (String × String)) :
    Option Int × Option String × Option String :=
  match objLookup hdrs "x-dev-user" with
  | none => (none, none, none)
  | some idRaw =>
    if idRaw = "" then (none, none, none)
    else
      match strToNumber idRaw with
      | none => (none, none, none)
      | some id =>
        (some id, objLookup hdrs "x-dev-username", objLookup hdrs "x-dev-firstname")

/-- The four module-level environment values of `progress.ts`
(lines 6-9), after the `|| fallback` chains and `.trim()`; a missing
variable is the empty string. -/
structure ProgressEnv where
  supabaseUrl : String
  supabaseServiceRole : String
  telegramBotToken : String
  allowOrigin : String

/-- Line 9 of `progress.ts`: `(process.env.ALLOW_ORIGIN || "*").trim()`,
over the raw environment variable (absent or empty falls back to the
wildcard). -/
def progressAllowOrigin (v : Option String) : String :=
  match v with
  | none => "*"
  | some s => if s = "" then "*" else ⟨(s.data.dropWhile isWs).reverse.dropWhile isWs |>.reverse⟩

/-- Outcome of one `progress.ts` handler invocation, up to the remote
store boundary: an early JSON response (status plus the `error` field,
if any), one of the two GET diagnostic paths (which touch the store and
are out of the verified scope), or the decision to run the store phase
(`upsertUserProfile` + `applyEvents`) for an authenticated identity. -/
inductive ProgressOutcome where
  | response (status : Nat) (error : Option String)
  | diag (urlSet roleSet tokenSet : Bool)
  | probe
  | store (userId : Int) (username first_name : Option Json) (events : List Json)

/-- Status code of an early response outcome, if the outcome is one. -/
def ProgressOutcome.statusOf : ProgressOutcome → Option Nat
  | .response s _ => some s
  | _ => none

/-- Whether the outcome runs store operations for an identity. -/
def ProgressOutcome.isStore : ProgressOutcome → Bool
  | .store .. => true
  | _ => false

/-- Identity resolution of the POST path (lines 148-155 of
`progress.ts`): a truthy `body.initData` goes through
`verifyTelegramInitData` (a failure is answered immediately with 401),
anything else falls back to `devUser` on the lowercased headers.
`Sum.inl` carries the 401 reason, `Sum.inr` the resolved
`(userId, username, first_name)` triple. -/
def resolveIdentity (hmac : String → String → String) (jp : String → Option Json)
    (botToken : String) (bj : Json) (hdrs : List (String × String)) :
    Sum String (Option Int × Option Json × Option Json) :=
  match bj.getField "initData" with
  | some j =>
    if jsTruthy j then
      match verifyTelegramInitData hmac jp botToken (jsToStr j) with
      | .fail r => Sum.inl r
      | .ok v => Sum.inr (v.userId, v.username, v.first_name)
    else
      let d := devUser hdrs
      Sum.inr (d.1, d.2.1.map Json.str, d.2.2.map Json.str)
  | none =>
    let d := devUser hdrs
    Sum.inr (d.1, d.2.1.map Json.str, d.2.2.map Json.str)

/-- The POST path of the `progress.ts` handler (lines 144-168), up to
the store boundary.  The only environment value this path reads is the
bot token (through `verifyTelegramInitData`); `body` is `ev.body` with
`""` standing for a missing body. -/
def progressPost (hmac : String → String → String) (jp : String → Option Json)
    (botToken : String) (headers : List (String × String))
    (body : String) : ProgressOutcome :=
  let hdrs := lowerHeaders headers
  match jp (if body = "" then "{}" else body) with
  | none => .response 400 (some "Invalid JSON")
  | some bj =>
    match resolveIdentity hmac jp botToken bj hdrs with
    | Sum.inl r => .response 401 (some ("Invalid Telegram initData: " ++ r))
    | Sum.inr (uid, un, fn) =>
      match uid with
      | none => .response 401 (some "No user")
      | some n =>
        if n = 0 then .response 401 (some "No user")
        else
          match bj.getField "op", bj.getField "events" with
          | some (.str "batch"), none => .store n un fn []
          | some (.str "batch"), some (.arr evs) => .store n un fn evs
          | _, _ => .response 400 (some "Invalid op")

/-- The `progress.ts` handler (lines 125-169), up to the store
boundary.  `jp` is `JSON.parse` (`none` models a thrown parse error),
`hmac` the HMAC primitive, `queryOp` is `queryStringParameters?.op`. -/
def progressHandler (hmac : String → String → String) (jp : String → Option Json)
    (env : ProgressEnv) (httpMethod : String) (queryOp : Option String)
    (headers : List (String × String)) (body : String) : ProgressOutcome :=
  if httpMethod = "OPTIONS" then .response 200 none
  else if httpMethod = "GET" then
    let op := match queryOp with | none => "ping" | some "" => "ping" | some s => s
    if op = "diag" then
      .diag (env.supabaseUrl ≠ "") (env.supabaseServiceRole ≠ "") (env.telegramBotToken ≠ "")
    else if op = "probe" then .probe
    else .response 200 none
  else if httpMethod ≠ "POST" then .response 405 (some "Method not allowed")
  else progressPost hmac jp env.telegramBotToken headers body

/-! ## The request handler of `sync.js` -/

/-- The three environment variables destructured from `process.env` in
`sync.js` (line 30); `none` models an absent variable. -/
structure SyncEnv where
  botToken : Option String
  supabaseUrl : Option String
  supabaseServiceKey : Option String

/-- JS falsiness of an optional environment string (`undefined` or
`""`). -/
def falsyEnv : Option String → Bool
  | none => true
  | some s => s = ""

/-- Outcome of one `sync.js` handler invocation, up to the remote store
boundary: an early JSON response (status plus `error` field), or the
decision to run the `pull`/`push` store phase for a verified user. -/
inductive SyncOutcome where
  | simple (status : Nat) (error : Option String)
  | pull (user : Json)
  | push (user : Json)

/-- Status code of an early response outcome, if the outcome is one. -/
def SyncOutcome.statusOf : SyncOutcome → Option Nat
  | .simple s _ => some s
  | _ => none

/-- The `sync.js` handler (lines 21-73), up to the store boundary.
`action` is `url.searchParams.get("action")`, `initDataHdr` the
`x-telegram-init-data` header.  The store phase of `pull`/`push`
(Supabase REST calls and the push body handling) is outside the
verified scope and represented by the `pull`/`push` outcomes. -/
def syncHandler (cmp : String → String → Ordering)
    (hmac : String → String → String) (jp : String → Option Json)
    (env : SyncEnv) (nowMs : Int) (httpMethod : String)
    (action : Option String) (initDataHdr : Option String) : SyncOutcome :=
  if httpMethod = "OPTIONS" then .simple 204 none
  else if falsyEnv env.botToken ∨ falsyEnv env.supabaseUrl ∨ falsyEnv env.supabaseServiceKey then
    .simple 500 (some "Env BOT_TOKEN / SUPABASE_URL / SUPABASE_SERVICE_KEY required")
  else if action = some "ping" then .simple 200 none
  else
    let initData := initDataHdr.getD ""
    match verifyTelegram cmp hmac jp nowMs initData (env.botToken.getD "") with
    | none => .simple 401 (some "Bad Telegram signature")
    | some user =>
      if jsTruthy user then
        if action = some "pull" then .pull user
        else if action = some "push" then
          if httpMethod ≠ "POST" then .simple 405 (some "POST only") else .push user
        else .simple 400 (some "Unknown action")
      else .simple 401 (some "Bad Telegram signature")

/-! ## Claim-side check-string definitions

The claim about the canonical check-string (and its amendment) each get
a definition written from the corresponding natural-language wording,
to be compared with the code-derived `progressDataCheckString`. -/

/-- The check-string as the claim words it: take all key/value pairs
except the `hash` pair, sort them lexicographically BY KEY in
code-point order, format each as `key=value`, and join with single
newlines in that sorted order. -/
def claimCheckStringByKey (initData : String) : String :=
  let pairs := (parseParams initData).filter (fun p => p.1 ≠ "hash")
  let sorted := List.insertionSort (fun p q : String × String => strLeb p.1 q.1 = true) pairs
  joinNl (sorted.map (fun p => p.1 ++ "=" ++ p.2))

/-- The check-string as the amended claim words it: take all key/value
pairs except the `hash` pairs, format each as `key=value`, sort the
FORMATTED STRINGS lexicographically in code-point order, and join with
single newlines. -/
def amendedCheckStringSortedLines (initData : String) : String :=
  let lines := ((parseParams initData).filter (fun p => p.1 ≠ "hash")).map
    (fun p => p.1 ++ "=" ++ p.2)
  joinNl (List.insertionSort (fun a b : String => strLeb a b = true) lines)

/-! ## Concrete platform instantiations used by witnesses and
counterexamples

`demoHmac` is a stand-in for the two-stage HMAC-SHA256 chain: any
deterministic keyed function exercises the verifiers' control flow,
and the concrete inputs below are built to agree or disagree with it
exactly where the real digests would.  `demoJsonParse` is `JSON.parse`
restricted to the JSON texts appearing in those inputs (each mapped to
its genuine parse) and failing elsewhere.  `demoCmp` is a plausible
`localeCompare`: the code-point collation. -/

/-- A concrete deterministic keyed MAC used to instantiate the `hmac`
parameter in closed statements. -/
def demoHmac (key msg : String) : String := "mac[" ++ key ++ "|" ++ msg ++ "]"

/-- A concrete locale comparator: code-point collation. -/
def demoCmp (a b : String) : Ordering :=
  if strLeb a b then (if strLeb b a then Ordering.eq else Ordering.lt) else Ordering.gt

/-- `JSON.parse` restricted to the concrete JSON texts used in closed
statements; every mapped text is genuine JSON with its genuine parse,
and everything else fails. -/
def demoJsonParse (s : String) : Option Json :=
  if s = "7" then some (.num 7)
  else if s = "\x7b\"id\":7\x7d" then some (.obj [("id", .num 7)])
  else if s = "\x7b\"op\":\"batch\"\x7d" then some (.obj [("op", .str "batch")])
  else if s = "\x7b\"initData\":\"x\"\x7d" then some (.obj [("initData", .str "x")])
  else if s = "\x7b\"initData\":\"user=7&hash=mac[mac[WebAppData|t]|user=7]\",\"op\":\"batch\"\x7d" then
    some (.obj [("initData", .str "user=7&hash=mac[mac[WebAppData|t]|user=7]"), ("op", .str "batch")])
  else none

/-! ## Helper lemmas -/

/-- The integer form used by `syncIsStale` is exactly the source's
`Date.now() / 1000 - authDate > 86400 * 7` over the rationals. -/
theorem syncIsStale_spec (n a : Int) :
    (n - 1000 * a > 86400 * 7 * 1000) ↔ ((n : ℚ) / 1000 - (a : ℚ) > 86400 * 7) := by
  rw [gt_iff_lt, gt_iff_lt, lt_sub_iff_add_lt (α := ℚ),
    lt_div_iff₀ (by norm_num : (0 : ℚ) < 1000),
    show ((86400 * 7 : ℚ) + (a : ℚ)) * 1000 = ((86400 * 7 * 1000 + 1000 * a : Int) : ℚ) by
      push_cast; ring,
    Int.cast_lt (R := ℚ)]
  omega

/-- A blob in which any key is found is not the empty string. -/
theorem ne_empty_of_lookup {s k v : String}
    (h : (parseParams s).lookup k = some v) : s ≠ "" := by
  intro e
  subst e
  simp [parseParams, splitAmpAux, List.filterMap] at h

/-- Comparing equal strings is in constant time a success. -/
theorem timingSafeEqual_self (a : String) : timingSafeEqual a a = some true := by
  simp [timingSafeEqual]

/-- Equal byte lengths but different contents compare to `false`. -/
theorem timingSafeEqual_ne (a b : String) (hlen : a.utf8ByteSize = b.utf8ByteSize)
    (hne : a ≠ b) : timingSafeEqual a b = some false := by
  simp [timingSafeEqual, hlen, hne]

/-- Different byte lengths make `crypto.timingSafeEqual` throw. -/
theorem timingSafeEqual_len (a b : String) (hlen : a.utf8ByteSize ≠ b.utf8ByteSize) :
    timingSafeEqual a b = none := by
  simp [timingSafeEqual, hlen]

/-- Totality of the code-point order on character lists. -/
theorem charListLeb_total : ∀ as bs : List Char,
    charListLeb as bs = true ∨ charListLeb bs as = true := by
  intro as
  induction as with
  | nil => intro bs; left; rfl
  | cons a as ih =>
    intro bs
    cases bs with
    | nil => right; rfl
    | cons b bs =>
      rcases lt_trichotomy a b with hab | hab | hab
      · left; simp [charListLeb, hab]
      · subst hab
        rcases ih bs with h | h
        · left; simp [charListLeb, h]
        · right; simp [charListLeb, h]
      · right; simp [charListLeb, hab]

/-- Antisymmetry of the code-point order on character lists. -/
theorem charListLeb_antisymm : ∀ as bs : List Char,
    charListLeb as bs = true → charListLeb bs as = true → as = bs := by
  intro as
  induction as with
  | nil =>
    intro bs _ h2
    cases bs with
    | nil => rfl
    | cons b bs => simp [charListLeb] at h2
  | cons a as ih =>
    intro bs h1 h2
    cases bs with
    | nil => simp [charListLeb] at h1
    | cons b bs =>
      rcases lt_trichotomy a b with hab | hab | hab
      · simp [charListLeb, hab, asymm hab] at h2
      · subst hab
        simp only [charListLeb, lt_irrefl, if_false] at h1 h2
        rw [ih bs h1 h2]
      · simp [charListLeb, hab, asymm hab] at h1

/-- Transitivity of the code-point order on character lists. -/
theorem charListLeb_trans : ∀ as bs cs : List Char,
    charListLeb as bs = true → charListLeb bs cs = true →
    charListLeb as cs = true := by
  intro as
  induction as with
  | nil => intro bs cs _ _; rfl
  | cons a as ih =>
    intro bs cs h1 h2
    cases bs with
    | nil => simp [charListLeb] at h1
    | cons b bs =>
      cases cs with
      | nil => simp [charListLeb] at h2
      | cons c cs =>
        rcases lt_trichotomy a b with hab | hab | hab <;>
          rcases lt_trichotomy b c with hbc | hbc | hbc
        · simp [charListLeb, lt_trans hab hbc]
        · subst hbc; simp [charListLeb, hab]
        · simp [charListLeb, hbc, asymm hbc] at h2
        · subst hab; simp [charListLeb, hbc]
        · subst hab; subst hbc
          simp only [charListLeb, lt_irrefl, if_false] at h1 h2 ⊢
          exact ih bs cs h1 h2
        · simp [charListLeb, hbc, asymm hbc] at h2
        · simp [charListLeb, hab, asymm hab] at h1
        · simp [charListLeb, hab, asymm hab] at h1
        · simp [charListLeb, hab, asymm hab] at h1

/-- `insertStr` is Mathlib's `List.orderedInsert` for the Boolean
code-point order. -/
theorem insertStr_eq_orderedInsert (s : String) (l : List String) :
    insertStr s l = List.orderedInsert (fun a b => strLeb a b = true) s l := by
  induction l with
  | nil => rfl
  | cons t ts ih =>
    by_cases h : strLeb s t = true
    · simp [insertStr, List.orderedInsert, h]
    · simp [insertStr, List.orderedInsert, h, ih]

/-- `sortStrings` is Mathlib's insertion sort for the Boolean
code-point order. -/
theorem sortStrings_eq_insertionSort (l : List String) :
    sortStrings l = List.insertionSort (fun a b => strLeb a b = true) l := by
  induction l with
  | nil => rfl
  | cons s ss ih => simp [sortStrings, List.insertionSort, ih, insertStr_eq_orderedInsert]

/-- The model of `pairs.sort()` permutes its input. -/
theorem sortStrings_perm (l : List String) : (sortStrings l).Perm l := by
  rw [sortStrings_eq_insertionSort]
  exact List.perm_insertionSort _ l

/-- The model of `pairs.sort()` sorts its input in code-point order. -/
theorem sortStrings_sorted (l : List String) :
    List.Sorted (fun a b => strLeb a b = true) (sortStrings l) := by
  rw [sortStrings_eq_insertionSort]
  haveI : IsTotal String (fun a b => strLeb a b = true) :=
    ⟨fun a b => charListLeb_total a.data b.data⟩
  haveI : IsTrans String (fun a b => strLeb a b = true) :=
    ⟨fun a b c => charListLeb_trans a.data b.data c.data⟩
  exact List.sorted_insertionSort _ l

/-- When the presented `hash` is non-empty and equals the recomputed
HMAC chain, the progress verifier reaches its user-parsing phase. -/
theorem verifyTelegramInitData_signed (hm : String → String → String)
    (jp : String → Option Json) (tok s h : String)
    (h1 : (parseParams s).lookup "hash" = some h) (h2 : h ≠ "")
    (h3 : hm (hm "WebAppData" tok) (progressDataCheckString s) = h) :
    verifyTelegramInitData hm jp tok s =
      (match (parseParams s).lookup "user" with
       | none => .fail "NO_USER"
       | some userJson =>
         if userJson = "" then .fail "NO_USER"
         else
           match jp userJson with
           | none => .fail "USER_PARSE"
           | some user =>
             .ok ⟨jsNumber (user.getField "id"),
                  user.getField "username", user.getField "first_name"⟩) := by
  have hs : s ≠ "" := ne_empty_of_lookup h1
  simp only [verifyTelegramInitData, if_neg hs, h1, Option.getD_some, if_neg h2, h3,
    timingSafeEqual_self]

/-- When the presented `hash` is non-empty and equals the recomputed
HMAC chain, the sync verifier reaches its user/freshness phase. -/
theorem verifyTelegram_signed (cmp : String → String → Ordering)
    (hm : String → String → String) (jp : String → Option Json)
    (nowMs : Int) (s tok h : String)
    (h1 : (parseParams s).lookup "hash" = some h) (h2 : h ≠ "")
    (h3 : hm (hm "WebAppData" tok) (syncDataCheckString cmp s) = h) :
    verifyTelegram cmp hm jp nowMs s tok =
      (match (syncRest s).lookup "user" with
       | none => none
       | some userStr =>
         if userStr = "" then none
         else if syncIsStale nowMs s then none
         else jp userStr) := by
  have hs : s ≠ "" := ne_empty_of_lookup h1
  simp only [verifyTelegram, if_neg hs, h1, if_neg h2, h3,
    if_neg (fun hc : h ≠ h => hc rfl)]

/-! ## Claims -/

/-- Claim C2: for every credential blob correctly signed with the given
bot secret (non-empty presented `hash` equal to the recomputed HMAC
chain over the canonical check-string), whose `user` field is present
and parses, `verify` succeeds; the progress verifier returns an
identity whose id is the `user.id` of the signed payload, and the sync
verifier (when additionally fresh) returns the parsed user payload
itself. -/
theorem c2_verify_ok :
    (∀ (hm : String → String → String) (jp : String → Option Json)
        (tok s h u : String) (j : Json) (n : Int),
      (parseParams s).lookup "hash" = some h → h ≠ "" →
      hm (hm "WebAppData" tok) (progressDataCheckString s) = h →
      (parseParams s).lookup "user" = some u → u ≠ "" →
      jp u = some j → j.getField "id" = some (.num n) →
      verifyTelegramInitData hm jp tok s =
        .ok ⟨some n, j.getField "username", j.getField "first_name"⟩) ∧
    (∀ (cmp : String → String → Ordering) (hm : String → String → String)
        (jp : String → Option Json) (nowMs : Int) (s tok h u : String) (j : Json),
      (parseParams s).lookup "hash" = some h → h ≠ "" →
      hm (hm "WebAppData" tok) (syncDataCheckString cmp s) = h →
      (syncRest s).lookup "user" = some u → u ≠ "" →
      syncIsStale nowMs s = false →
      jp u = some j →
      verifyTelegram cmp hm jp nowMs s tok = some j) := by
  constructor
  · intro hm jp tok s h u j n h1 h2 h3 h4 h5 h6 h7
    rw [verifyTelegramInitData_signed hm jp tok s h h1 h2 h3]
    simp only [h4, if_neg h5, h6, h7]
    rfl
  · intro cmp hm jp nowMs s tok h u j h1 h2 h3 h4 h5 h6 h7
    rw [verifyTelegram_signed cmp hm jp nowMs s tok h h1 h2 h3]
    simp only [h4, if_neg h5, h6, if_false, h7]
    rfl

/-- Witness for C2: a concretely signed blob (under the demo platform
functions) verifies in both verifiers with the signed payload's id. -/
theorem c2_witness :
    verifyTelegramInitData demoHmac demoJsonParse "t"
      "user=\x7b\"id\":7\x7d&hash=mac[mac[WebAppData|t]|user=\x7b\"id\":7\x7d]"
      = .ok ⟨some 7, none, none⟩ ∧
    verifyTelegram demoCmp demoHmac demoJsonParse 6000
      "auth_date=5&user=7&hash=mac[mac[WebAppData|t]|auth_date=5\nuser=7]" "t"
      = some (.num 7) := by
  constructor
  · exact c2_verify_ok.1 demoHmac demoJsonParse "t"
      "user=\x7b\"id\":7\x7d&hash=mac[mac[WebAppData|t]|user=\x7b\"id\":7\x7d]"
      "mac[mac[WebAppData|t]|user=\x7b\"id\":7\x7d]"
      "\x7b\"id\":7\x7d" (.obj [("id", .num 7)]) 7
      (by decide) (by decide) rfl (by decide) (by decide) rfl rfl
  · exact c2_verify_ok.2 demoCmp demoHmac demoJsonParse 6000
      "auth_date=5&user=7&hash=mac[mac[WebAppData|t]|auth_date=5\nuser=7]" "t"
      "mac[mac[WebAppData|t]|auth_date=5\nuser=7]" "7" (.num 7)
      (by decide) (by decide) rfl (by decide) (by decide) (by decide) rfl

/-- Claim C6: a credential blob containing a `hash` whose signature
check passes but whose `user` field does not parse as JSON fails with
reason `USER_PARSE` in the progress verifier (and fails, with the bare
`null`, in the sync verifier): signature validity does not imply
payload validity. -/
theorem c6_user_parse :
    (∀ (hm : String → String → String) (jp : String → Option Json)
        (tok s h u : String),
      (parseParams s).lookup "hash" = some h → h ≠ "" →
      hm (hm "WebAppData" tok) (progressDataCheckString s) = h →
      (parseParams s).lookup "user" = some u → u ≠ "" →
      jp u = none →
      verifyTelegramInitData hm jp tok s = .fail "USER_PARSE") ∧
    (∀ (cmp : String → String → Ordering) (hm : String → String → String)
        (jp : String → Option Json) (nowMs : Int) (s tok h u : String),
      (parseParams s).lookup "hash" = some h → h ≠ "" →
      hm (hm "WebAppData" tok) (syncDataCheckString cmp s) = h →
      (syncRest s).lookup "user" = some u → u ≠ "" →
      syncIsStale nowMs s = false →
      jp u = none →
      verifyTelegram cmp hm jp nowMs s tok = none) := by
  constructor
  · intro hm jp tok s h u h1 h2 h3 h4 h5 h6
    rw [verifyTelegramInitData_signed hm jp tok s h h1 h2 h3]
    simp only [h4, if_neg h5, h6]
  · intro cmp hm jp nowMs s tok h u h1 h2 h3 h4 h5 h6 h7
    rw [verifyTelegram_signed cmp hm jp nowMs s tok h h1 h2 h3]
    simp only [h4, if_neg h5, h6, if_false, h7]
    rfl

/-- Witness for C6: a concretely signed blob whose `user` value is not
JSON fails with `USER_PARSE` (progress) and `null` (sync). -/
theorem c6_witness :
    verifyTelegramInitData demoHmac demoJsonParse "t"
      "user=notjson&hash=mac[mac[WebAppData|t]|user=notjson]"
      = .fail "USER_PARSE" ∧
    verifyTelegram demoCmp demoHmac demoJsonParse 6000
      "auth_date=5&user=notjson&hash=mac[mac[WebAppData|t]|auth_date=5\nuser=notjson]" "t"
      = none := by
  constructor
  · exact c6_user_parse.1 demoHmac demoJsonParse "t"
      "user=notjson&hash=mac[mac[WebAppData|t]|user=notjson]"
      "mac[mac[WebAppData|t]|user=notjson]" "notjson"
      (by decide) (by decide) rfl (by decide) (by decide) rfl
  · exact c6_user_parse.2 demoCmp demoHmac demoJsonParse 6000
      "auth_date=5&user=notjson&hash=mac[mac[WebAppData|t]|auth_date=5\nuser=notjson]" "t"
      "mac[mac[WebAppData|t]|auth_date=5\nuser=notjson]" "notjson"
      (by decide) (by decide) rfl (by decide) (by decide) (by decide) rfl

/-- Claim C9: in the progress verifier, a blob whose `hash` key is
bound to the empty string is treated exactly like a blob with no
`hash` key at all: both fail with `NO_HASH`, for every choice of the
HMAC primitive and of `JSON.parse` (so before any HMAC computation or
user parsing). -/
theorem c9_empty_hash :
    (∀ (hm : String → String → String) (jp : String → Option Json) (tok s : String),
      (parseParams s).lookup "hash" = some "" →
      verifyTelegramInitData hm jp tok s = .fail "NO_HASH") ∧
    (∀ (hm : String → String → String) (jp : String → Option Json) (tok s : String),
      s ≠ "" → (parseParams s).lookup "hash" = none →
      verifyTelegramInitData hm jp tok s = .fail "NO_HASH") := by
  constructor
  · intro hm jp tok s h1
    have hs : s ≠ "" := ne_empty_of_lookup h1
    simp only [verifyTelegramInitData, if_neg hs, h1, Option.getD_some, if_true]
  · intro hm jp tok s hs h1
    simp only [verifyTelegramInitData, if_neg hs, h1, Option.getD_none, if_true]

/-- Witness for C9: `a=1&hash=` (present but empty `hash`) and `a=1`
(absent `hash`) both fail with `NO_HASH`. -/
theorem c9_witness :
    verifyTelegramInitData demoHmac demoJsonParse "t" "a=1&hash=" = .fail "NO_HASH" ∧
    verifyTelegramInitData demoHmac demoJsonParse "t" "a=1" = .fail "NO_HASH" := by
  constructor
  · exact c9_empty_hash.1 demoHmac demoJsonParse "t" "a=1&hash=" (by decide)
  · exact c9_empty_hash.2 demoHmac demoJsonParse "t" "a=1" (by decide) (by decide)

/-- Counterexample to C5: in the progress verifier a presented `hash`
whose length differs from the candidate signature makes
`crypto.timingSafeEqual` throw, so the failure reason is `CRYPTO_FAIL`,
not the claimed `HASH_MISMATCH` (the candidate under `demoHmac` is 26
bytes, the presented `ab` is 2). -/
theorem c5_counterexample :
    (verifyTelegramInitData demoHmac demoJsonParse "t" "a=1&hash=ab").reasonOf
      = some "CRYPTO_FAIL" ∧
    some "CRYPTO_FAIL" ≠ some "HASH_MISMATCH" := ⟨rfl, by decide⟩

/-- Claim C5 (amended): in the progress verifier a candidate signature
that differs from the presented `hash` at EQUAL byte length fails with
`HASH_MISMATCH`, while a LENGTH difference makes `timingSafeEqual`
throw and fails with `CRYPTO_FAIL`. -/
theorem c5_amended (hm : String → String → String) (jp : String → Option Json)
    (tok s h : String)
    (h1 : (parseParams s).lookup "hash" = some h) (h2 : h ≠ "") :
    ((hm (hm "WebAppData" tok) (progressDataCheckString s)).utf8ByteSize = h.utf8ByteSize →
      hm (hm "WebAppData" tok) (progressDataCheckString s) ≠ h →
      verifyTelegramInitData hm jp tok s = .fail "HASH_MISMATCH") ∧
    ((hm (hm "WebAppData" tok) (progressDataCheckString s)).utf8ByteSize ≠ h.utf8ByteSize →
      verifyTelegramInitData hm jp tok s = .fail "CRYPTO_FAIL") := by
  have hs : s ≠ "" := ne_empty_of_lookup h1
  constructor
  · intro hlen hne
    simp only [verifyTelegramInitData, if_neg hs, h1, Option.getD_some, if_neg h2,
      timingSafeEqual_ne _ _ hlen hne]
  · intro hlen
    simp only [verifyTelegramInitData, if_neg hs, h1, Option.getD_some, if_neg h2,
      timingSafeEqual_len _ _ hlen]

/-- Witness for C5 (amended): an equal-length corruption of the
candidate gives `HASH_MISMATCH`; a shorter presented hash gives
`CRYPTO_FAIL`. -/
theorem c5_witness :
    verifyTelegramInitData demoHmac demoJsonParse "t"
      "a=1&hash=Mac[mac[WebAppData|t]|a=1]" = .fail "HASH_MISMATCH" ∧
    verifyTelegramInitData demoHmac demoJsonParse "t" "a=1&hash=ab"
      = .fail "CRYPTO_FAIL" := by
  constructor
  · exact (c5_amended demoHmac demoJsonParse "t" "a=1&hash=Mac[mac[WebAppData|t]|a=1]"
      "Mac[mac[WebAppData|t]|a=1]" (by decide) (by decide)).1 (by decide) (by decide)
  · exact (c5_amended demoHmac demoJsonParse "t" "a=1&hash=ab" "ab"
      (by decide) (by decide)).2 (by decide)

/-- Counterexample to C3: the progress verifier accepts a correctly
signed blob whose `auth_date` is `1` (January 1970, older than any
plausible freshness window) — no `STALE` failure exists on this path,
and the verifier takes no maximum-age parameter at all. -/
theorem c3_counterexample :
    verifyTelegramInitData demoHmac demoJsonParse "t"
      "auth_date=1&user=\x7b\"id\":7\x7d&hash=mac[mac[WebAppData|t]|auth_date=1\nuser=\x7b\"id\":7\x7d]"
      = .ok ⟨some 7, none, none⟩ ∧
    (verifyTelegramInitData demoHmac demoJsonParse "t"
      "auth_date=1&user=\x7b\"id\":7\x7d&hash=mac[mac[WebAppData|t]|auth_date=1\nuser=\x7b\"id\":7\x7d]").reasonOf
      ≠ some "STALE" := ⟨rfl, by decide⟩

/-- Claim C3 (amended): the progress verifier performs no freshness
check at all — no failure reason `STALE` is reachable for any input and
any platform primitives; the sync verifier rejects (with its bare
`null`) any otherwise-valid blob whose `auth_date` is more than the
HARD-CODED seven days older than the ambient clock — the window is not
a caller-supplied parameter of either verifier. -/
theorem c3_amended :
    (∀ (hm : String → String → String) (jp : String → Option Json) (tok s r : String),
      verifyTelegramInitData hm jp tok s = .fail r → r ≠ "STALE") ∧
    (∀ (cmp : String → String → Ordering) (hm : String → String → String)
        (jp : String → Option Json) (nowMs : Int) (s tok h u : String),
      (parseParams s).lookup "hash" = some h → h ≠ "" →
      hm (hm "WebAppData" tok) (syncDataCheckString cmp s) = h →
      (syncRest s).lookup "user" = some u → u ≠ "" →
      syncIsStale nowMs s = true →
      verifyTelegram cmp hm jp nowMs s tok = none) := by
  constructor
  · intro hm jp tok s r hf
    simp only [verifyTelegramInitData] at hf
    repeat' split at hf
    all_goals try (injection hf with h)
    all_goals try subst h
    all_goals first | decide | simp at hf
  · intro cmp hm jp nowMs s tok h u h1 h2 h3 h4 h5 h6
    rw [verifyTelegram_signed cmp hm jp nowMs s tok h h1 h2 h3]
    simp only [h4, if_neg h5, h6, if_true]

/-- Witness for C3 (amended): the empty blob's failure reason is not
`STALE`, and a concretely signed blob with `auth_date = 5` is rejected
by the sync verifier at a clock value far in its future. -/
theorem c3_witness :
    ("EMPTY" : String) ≠ "STALE" ∧
    verifyTelegram demoCmp demoHmac demoJsonParse 1000000000000
      "auth_date=5&user=7&hash=mac[mac[WebAppData|t]|auth_date=5\nuser=7]" "t"
      = none := by
  constructor
  · exact c3_amended.1 demoHmac demoJsonParse "t" "" "EMPTY" rfl
  · exact c3_amended.2 demoCmp demoHmac demoJsonParse 1000000000000
      "auth_date=5&user=7&hash=mac[mac[WebAppData|t]|auth_date=5\nuser=7]" "t"
      "mac[mac[WebAppData|t]|auth_date=5\nuser=7]" "7"
      (by decide) (by decide) rfl (by decide) (by decide) (by decide)

/-- Counterexample to C4: the progress verifier's check-string is NOT
obtained by sorting the pairs by key: on `a1=b&a=z&hash=x` sorting the
formatted `key=value` strings gives `a1=b` before `a=z` (since `1` <
`=` in code points), while sorting by key gives `a` before `a1`. -/
theorem c4_counterexample :
    progressDataCheckString "a1=b&a=z&hash=x" = "a1=b\na=z" ∧
    claimCheckStringByKey "a1=b&a=z&hash=x" = "a=z\na1=b" ∧
    progressDataCheckString "a1=b&a=z&hash=x" ≠ claimCheckStringByKey "a1=b&a=z&hash=x" :=
  ⟨by decide, by decide, by decide⟩

/-- Claim C4 (amended): the check-string hashed by the progress
verifier is built by taking all key/value pairs except the `hash`
pairs, formatting each as `key=value`, sorting the FORMATTED STRINGS
(not the keys) lexicographically in code-point order, and joining with
single newlines: it equals the amended wording's definition, and the
sorted line list is a sorted permutation of the formatted pairs. -/
theorem c4_amended (s : String) :
    progressDataCheckString s = amendedCheckStringSortedLines s ∧
    (sortStrings (progressPairs s)).Perm (progressPairs s) ∧
    List.Sorted (fun a b => strLeb a b = true) (sortStrings (progressPairs s)) := by
  refine ⟨?_, sortStrings_perm _, sortStrings_sorted _⟩
  unfold progressDataCheckString amendedCheckStringSortedLines progressPairs
  rw [sortStrings_eq_insertionSort]

/-- Witness for C4 (amended): the two formulations agree on a concrete
blob. -/
theorem c4_witness :
    progressDataCheckString "b=2&a=1&hash=x"
      = amendedCheckStringSortedLines "b=2&a=1&hash=x" :=
  (c4_amended "b=2&a=1&hash=x").1

/-- Counterexample to C7: the sync verifier is not a function of the
credential blob and secret alone — the same correctly signed blob
verifies at clock `0` ms and is rejected at clock `10^12` ms (the
hard-coded 7-day window has passed `auth_date = 5`). -/
theorem c7_counterexample :
    verifyTelegram demoCmp demoHmac demoJsonParse 0
      "auth_date=5&user=7&hash=mac[mac[WebAppData|t]|auth_date=5\nuser=7]" "t"
      = some (.num 7) ∧
    verifyTelegram demoCmp demoHmac demoJsonParse 1000000000000
      "auth_date=5&user=7&hash=mac[mac[WebAppData|t]|auth_date=5\nuser=7]" "t"
      = none := ⟨rfl, rfl⟩

/-- Claim C7 (amended): the sync verifier's result genuinely depends on
the ambient clock (`Date.now()`): there are two times at which the same
blob and secret give different results.  Neither verifier takes a
maximum-age parameter; the progress verifier reads no clock at all. -/
theorem c7_amended :
    ∃ t t' : Int,
      verifyTelegram demoCmp demoHmac demoJsonParse t
        "auth_date=5&user=7&hash=mac[mac[WebAppData|t]|auth_date=5\nuser=7]" "t" ≠
      verifyTelegram demoCmp demoHmac demoJsonParse t'
        "auth_date=5&user=7&hash=mac[mac[WebAppData|t]|auth_date=5\nuser=7]" "t" := by
  have h1 : verifyTelegram demoCmp demoHmac demoJsonParse 0
      "auth_date=5&user=7&hash=mac[mac[WebAppData|t]|auth_date=5\nuser=7]" "t"
      = some (.num 7) := rfl
  have h2 : verifyTelegram demoCmp demoHmac demoJsonParse 1000000000000
      "auth_date=5&user=7&hash=mac[mac[WebAppData|t]|auth_date=5\nuser=7]" "t"
      = none := rfl
  refine ⟨0, 1000000000000, ?_⟩
  rw [h1, h2]
  simp

/-- Claim C10: a POST request to the progress handler whose credential
blob verifies but whose `user.id` coerces under `Number` to `0` or
`NaN` (id missing, non-numeric, or zero) is answered `401` with error
`No user`, and no store operation runs for it (the outcome is a
response, not a store phase). -/
theorem c10_no_user (hm : String → String → String) (jp : String → Option Json)
    (env : ProgressEnv) (qop : Option String) (headers : List (String × String))
    (body : String) (bj : Json) (s : String) (v : TgVerifyOk)
    (hb : jp (if body = "" then "{}" else body) = some bj)
    (hinit : bj.getField "initData" = some (.str s)) (hsne : s ≠ "")
    (hver : verifyTelegramInitData hm jp env.telegramBotToken s = .ok v)
    (huid : v.userId = none ∨ v.userId = some 0) :
    progressHandler hm jp env "POST" qop headers body
      = .response 401 (some "No user") := by
  have hpost : progressHandler hm jp env "POST" qop headers body
      = progressPost hm jp env.telegramBotToken headers body := rfl
  have ht : jsTruthy (.str s) = true := by simp [jsTruthy, hsne]
  rw [hpost]
  rcases huid with h | h
  · simp only [progressPost, hb, resolveIdentity, hinit, ht, if_true, jsToStr, hver, h]
  · simp only [progressPost, hb, resolveIdentity, hinit, ht, if_true, jsToStr, hver, h,
      if_pos rfl]

/-- Witness for C10: a correctly signed blob whose user JSON is the
number `7` (so `user.id` is undefined and `Number(user.id)` is `NaN`)
is rejected with 401 `No user`. -/
theorem c10_witness :
    progressHandler demoHmac demoJsonParse ⟨"url", "role", "t", "*"⟩ "POST" none []
      "\x7b\"initData\":\"user=7&hash=mac[mac[WebAppData|t]|user=7]\",\"op\":\"batch\"\x7d"
      = .response 401 (some "No user") :=
  c10_no_user demoHmac demoJsonParse ⟨"url", "role", "t", "*"⟩ none []
    "\x7b\"initData\":\"user=7&hash=mac[mac[WebAppData|t]|user=7]\",\"op\":\"batch\"\x7d"
    (.obj [("initData", .str "user=7&hash=mac[mac[WebAppData|t]|user=7]"),
           ("op", .str "batch")])
    "user=7&hash=mac[mac[WebAppData|t]|user=7]" ⟨none, none, none⟩
    rfl rfl (by decide) rfl (Or.inl rfl)

/-- Counterexample to C1: the dev-identity path of the progress handler
is reachable with NO non-production flag — the embedded handler reads
the full environment of the source (all four variables, here set to
production-like values) and still lets a POST without `initData` but
with an `X-Dev-User` header reach the store phase as user 42. -/
theorem c1_counterexample :
    progressHandler demoHmac demoJsonParse ⟨"url", "role", "t", "*"⟩ "POST" none
      [("X-Dev-User", "42")] "\x7b\"op\":\"batch\"\x7d" = .store 42 none none [] ∧
    (progressHandler demoHmac demoJsonParse ⟨"url", "role", "t", "*"⟩ "POST" none
      [("X-Dev-User", "42")] "\x7b\"op\":\"batch\"\x7d").isStore = true := ⟨rfl, rfl⟩

/-- Claim C1 (amended): when the POST body carries a (truthy, string)
`initData`, the progress handler reaches the store phase only with an
identity produced by a successful signature verification of that blob;
but when the body has no `initData`, the dev-identity path supplies the
store identity unconditionally — no non-production flag gates it. -/
theorem c1_amended (hm : String → String → String) (jp : String → Option Json)
    (env : ProgressEnv) (qop : Option String) (headers : List (String × String))
    (body : String) (bj : Json) (uid : Int) (un fn : Option Json) (evs : List Json)
    (hb : jp (if body = "" then "{}" else body) = some bj)
    (hstore : progressHandler hm jp env "POST" qop headers body = .store uid un fn evs) :
    (∀ s : String, bj.getField "initData" = some (.str s) → s ≠ "" →
      verifyTelegramInitData hm jp env.telegramBotToken s = .ok ⟨some uid, un, fn⟩ ∧
      uid ≠ 0) ∧
    (bj.getField "initData" = none →
      (devUser (lowerHeaders headers)).1 = some uid ∧ uid ≠ 0) := by
  have hpost : progressHandler hm jp env "POST" qop headers body
      = progressPost hm jp env.telegramBotToken headers body := rfl
  rw [hpost] at hstore
  simp only [progressPost, hb] at hstore
  constructor
  · intro s hinit hsne
    have ht : jsTruthy (.str s) = true := by simp [jsTruthy, hsne]
    simp only [resolveIdentity, hinit, ht, if_true, jsToStr] at hstore
    cases hv : verifyTelegramInitData hm jp env.telegramBotToken s with
    | fail r => simp only [hv] at hstore; simp at hstore
    | ok v =>
      obtain ⟨vu, vn, vf⟩ := v
      simp only [hv] at hstore
      cases hu : vu with
      | none => simp only [hu] at hstore; simp at hstore
      | some n =>
        simp only [hu] at hstore
        by_cases hn : n = 0
        · simp [hn] at hstore
        · rw [if_neg hn] at hstore
          split at hstore
          · injection hstore with e1 e2 e3 e4
            subst e1; subst e2; subst e3
            exact ⟨rfl, hn⟩
          · injection hstore with e1 e2 e3 e4
            subst e1; subst e2; subst e3
            exact ⟨rfl, hn⟩
          · simp at hstore
  · intro hinit
    simp only [resolveIdentity, hinit] at hstore
    cases hd : (devUser (lowerHeaders headers)).1 with
    | none => simp only [hd] at hstore; simp at hstore
    | some n =>
      simp only [hd] at hstore
      by_cases hn : n = 0
      · simp [hn] at hstore
      · rw [if_neg hn] at hstore
        split at hstore
        · injection hstore with e1 e2 e3 e4
          subst e1
          exact ⟨rfl, hn⟩
        · injection hstore with e1 e2 e3 e4
          subst e1
          exact ⟨rfl, hn⟩
        · simp at hstore

/-- Witness for C1 (amended): on the concrete dev-path request that
reaches the store phase as user 42, the theorem yields that the dev
identity supplied that id. -/
theorem c1_witness :
    (devUser (lowerHeaders [("X-Dev-User", "42")])).1 = some 42 ∧ (42 : Int) ≠ 0 :=
  (c1_amended demoHmac demoJsonParse ⟨"url", "role", "t", "*"⟩ none
    [("X-Dev-User", "42")] "\x7b\"op\":\"batch\"\x7d" (.obj [("op", .str "batch")])
    42 none none [] rfl rfl).2 rfl

/-- Counterexample to C8: the progress handler performs NO environment
check — with every configuration value missing (empty) it does not
return 500 but proceeds to the authentication check, answering 401 with
a verifier reason. -/
theorem c8_counterexample :
    progressHandler demoHmac demoJsonParse ⟨"", "", "", "*"⟩ "POST" none []
      "\x7b\"initData\":\"x\"\x7d"
      = .response 401 (some "Invalid Telegram initData: NO_HASH") ∧
    (progressHandler demoHmac demoJsonParse ⟨"", "", "", "*"⟩ "POST" none []
      "\x7b\"initData\":\"x\"\x7d").statusOf ≠ some 500 := ⟨rfl, by decide⟩

/-- Claim C8 (amended): the sync handler answers any non-OPTIONS
request 500 before any authentication when one of its three required
environment values is missing; the progress handler performs no such
check — its POST outcome is entirely independent of the store
configuration values — and its CORS origin is the only optional value,
defaulting to the wildcard. -/
theorem c8_amended :
    (∀ (cmp : String → String → Ordering) (hm : String → String → String)
        (jp : String → Option Json) (env : SyncEnv) (nowMs : Int)
        (method : String) (action initDataHdr : Option String),
      method ≠ "OPTIONS" →
      (falsyEnv env.botToken = true ∨ falsyEnv env.supabaseUrl = true ∨
        falsyEnv env.supabaseServiceKey = true) →
      syncHandler cmp hm jp env nowMs method action initDataHdr
        = .simple 500 (some "Env BOT_TOKEN / SUPABASE_URL / SUPABASE_SERVICE_KEY required")) ∧
    (∀ (hm : String → String → String) (jp : String → Option Json)
        (env env' : ProgressEnv) (qop : Option String)
        (headers : List (String × String)) (body : String),
      env.telegramBotToken = env'.telegramBotToken →
      progressHandler hm jp env "POST" qop headers body
        = progressHandler hm jp env' "POST" qop headers body) ∧
    progressAllowOrigin none = "*" := by
  refine ⟨?_, ?_, rfl⟩
  · intro cmp hm jp env nowMs method action initDataHdr hmethod henv
    simp only [syncHandler, if_neg hmethod, if_pos henv]
  · intro hm jp env env' qop headers body h
    have e1 : progressHandler hm jp env "POST" qop headers body
        = progressPost hm jp env.telegramBotToken headers body := rfl
    have e2 : progressHandler hm jp env' "POST" qop headers body
        = progressPost hm jp env'.telegramBotToken headers body := rfl
    rw [e1, e2, h]

/-- Witness for C8 (amended): a GET pull request against a sync
environment missing `BOT_TOKEN` gets the 500 configuration error; a
concrete progress POST yields the same outcome under two environments
differing only in store credentials and CORS origin. -/
theorem c8_witness :
    syncHandler demoCmp demoHmac demoJsonParse ⟨none, some "u", some "k"⟩ 0 "GET"
      (some "pull") none
      = .simple 500 (some "Env BOT_TOKEN / SUPABASE_URL / SUPABASE_SERVICE_KEY required") ∧
    progressHandler demoHmac demoJsonParse ⟨"", "", "t", "*"⟩ "POST" none []
      "\x7b\"op\":\"batch\"\x7d"
      = progressHandler demoHmac demoJsonParse ⟨"u2", "r2", "t", "o"⟩ "POST" none []
        "\x7b\"op\":\"batch\"\x7d" ∧
    progressAllowOrigin none = "*" := by
  refine ⟨?_, ?_, c8_amended.2.2⟩
  · exact c8_amended.1 demoCmp demoHmac demoJsonParse ⟨none, some "u", some "k"⟩ 0 "GET"
      (some "pull") none (by decide) (Or.inl rfl)
  · exact c8_amended.2.1 demoHmac demoJsonParse ⟨"", "", "t", "*"⟩ ⟨"u2", "r2", "t", "o"⟩
      none [] "\x7b\"op\":\"batch\"\x7d" rfl

end TgApp
